import Mathlib

/-!
Verification development for the InsightProfile acquisition-and-cache layer.

The repository ships the React front end (`frontend/`, `Dashboard.jsx` with the
Big Five radar mapping) together with documentation of the FastAPI backend
(`DATABASE_INTEGRATION_SUMMARY.md`, `QUICK_START_DATABASE.md`).  The backend
modules themselves (`main.py`, `crud.py`, `database.py`) are not part of the
source tree, so the Orchestrator, Profile Acquirer, Analysis Generator and
Record Store are modelled here from the specification; the Dashboard radar
mapping is embedded directly from the JSX source.

Strings from the program are embedded as `List Char`; timestamps are `Nat`
microsecond counts; machine integers are `Int`.
-/

namespace InsightProfile

/-- Opening-brace character, kept named so the JSON scanner reads clearly. -/
def lbraceChar : Char := '\x7b'

/-- Closing-brace character. -/
def rbraceChar : Char := '\x7d'

/-- JSON values as recovered by the defensive parser of the Analysis Generator.
Numbers are modelled as integers (the fields this layer reads are short
strings and small integers). -/
inductive Json where
  | jnull
  | jbool (b : Bool)
  | jnum (n : Int)
  | jstr (s : List Char)
  | jarr (xs : List Json)
  | jobj (fields : List (List Char × Json))
deriving Repr, Inhabited

/-- Whitespace recognised by the JSON scanner. -/
def isWs (c : Char) : Bool := c = ' ' || c = '\n' || c = '\t' || c = '\r'

/-- Drop leading whitespace. -/
def skipWs : List Char → List Char
  | [] => []
  | c :: cs => if isWs c then skipWs cs else c :: cs

/-- Minimal escape handling inside JSON string literals. -/
def unescapeChar (c : Char) : Char :=
  if c = 'n' then '\n' else if c = 't' then '\t' else if c = 'r' then '\r' else c

/-- Parse the body of a JSON string literal (the opening quote already
consumed); returns the contents and the remaining input. -/
def parseStringBody : List Char → Option (List Char × List Char)
  | [] => none
  | c :: cs =>
    if c = '"' then some ([], cs)
    else if c = '\\' then
      match cs with
      | [] => none
      | e :: cs2 =>
        match parseStringBody cs2 with
        | some (s, r) => some (unescapeChar e :: s, r)
        | none => none
    else
      match parseStringBody cs with
      | some (s, r) => some (c :: s, r)
      | none => none

/-- Split off a leading run of decimal digits. -/
def takeDigits (cs : List Char) : List Char × List Char :=
  match cs with
  | [] => ([], [])
  | c :: rest =>
    if c.isDigit then
      let (ds, r) := takeDigits rest
      (c :: ds, r)
    else ([], cs)

/-- Decimal digits to a natural number. -/
def digitsToNat (ds : List Char) : Nat :=
  ds.foldl (fun a c => a * 10 + (c.toNat - 48)) 0

/-- Parse an integer JSON number (the model ignores fractions/exponents). -/
def parseNumber (cs : List Char) : Option (Json × List Char) :=
  match cs with
  | '-' :: rest =>
    let (ds, r) := takeDigits rest
    if ds = [] then none else some (Json.jnum (-(digitsToNat ds : Int)), r)
  | _ =>
    let (ds, r) := takeDigits cs
    if ds = [] then none else some (Json.jnum (digitsToNat ds), r)

/-- Match a literal token at the head of the input. -/
def stripToken (tok : List Char) (cs : List Char) : Option (List Char) :=
  if cs.take tok.length = tok then some (cs.drop tok.length) else none

mutual

/-- Fuel-indexed recursive-descent JSON value parser. -/
def parseValue : Nat → List Char → Option (Json × List Char)
  | 0, _ => none
  | Nat.succ fuel, cs =>
    match skipWs cs with
    | [] => none
    | c :: rest =>
      if c = '"' then
        match parseStringBody rest with
        | some (s, r) => some (Json.jstr s, r)
        | none => none
      else if c = lbraceChar then parseObjBody fuel rest
      else if c = '[' then parseArrBody fuel rest
      else if c = '-' || c.isDigit then parseNumber (c :: rest)
      else
        match stripToken "true".data (c :: rest) with
        | some r => some (Json.jbool true, r)
        | none =>
          match stripToken "false".data (c :: rest) with
          | some r => some (Json.jbool false, r)
          | none =>
            match stripToken "null".data (c :: rest) with
            | some r => some (Json.jnull, r)
            | none => none

/-- Parse the inside of a JSON object, after the opening brace. -/
def parseObjBody : Nat → List Char → Option (Json × List Char)
  | 0, _ => none
  | Nat.succ fuel, cs =>
    match skipWs cs with
    | [] => none
    | c :: rest =>
      if c = rbraceChar then some (Json.jobj [], rest)
      else parseMembers fuel (c :: rest) []

/-- Parse one or more `"key": value` members, accumulating fields. -/
def parseMembers : Nat → List Char → List (List Char × Json) →
    Option (Json × List Char)
  | 0, _, _ => none
  | Nat.succ fuel, cs, acc =>
    match skipWs cs with
    | '"' :: rest =>
      match parseStringBody rest with
      | none => none
      | some (k, r1) =>
        match skipWs r1 with
        | ':' :: r2 =>
          match parseValue fuel r2 with
          | none => none
          | some (v, r3) =>
            match skipWs r3 with
            | ',' :: r4 => parseMembers fuel r4 (acc ++ [(k, v)])
            | c :: r4 =>
              if c = rbraceChar then some (Json.jobj (acc ++ [(k, v)]), r4)
              else none
            | [] => none
        | _ => none
    | _ => none

/-- Parse the inside of a JSON array, after the opening bracket. -/
def parseArrBody : Nat → List Char → Option (Json × List Char)
  | 0, _ => none
  | Nat.succ fuel, cs =>
    match skipWs cs with
    | [] => none
    | c :: rest =>
      if c = ']' then some (Json.jarr [], rest)
      else parseItems fuel (c :: rest) []

/-- Parse one or more array items, accumulating values. -/
def parseItems : Nat → List Char → List Json → Option (Json × List Char)
  | 0, _, _ => none
  | Nat.succ fuel, cs, acc =>
    match parseValue fuel cs with
    | none => none
    | some (v, r) =>
      match skipWs r with
      | ',' :: r2 => parseItems fuel r2 (acc ++ [v])
      | ']' :: r2 => some (Json.jarr (acc ++ [v]), r2)
      | _ => none

end

/-- Strict JSON parse of a whole text: a single value with only trailing
whitespace after it. -/
def parseJson (raw : List Char) : Option Json :=
  match parseValue (raw.length + 1) raw with
  | some (j, rest) => if skipWs rest = [] then some j else none
  | none => none

/-- Typed result of the Analysis Generator: a short summary plus ordered
strength and weakness items. -/
structure AnalysisResult where
  summary : List Char
  strengths : List (List Char)
  weaknesses : List (List Char)
deriving Repr, DecidableEq, Inhabited

/-- Read a JSON value as a string. -/
def asStr : Json → Option (List Char)
  | Json.jstr s => some s
  | _ => none

/-- Read a JSON value as an array of strings. -/
def asStrList : Json → Option (List (List Char))
  | Json.jarr xs => xs.mapM asStr
  | _ => none

/-- Interpret a parsed JSON value as the three-key analysis object requested from
the model: `summary`, `strengths`, `weaknesses`. -/
def interpretAnalysis : Json → Option AnalysisResult
  | Json.jobj fields => do
    let s ← fields.lookup "summary".data >>= asStr
    let st ← fields.lookup "strengths".data >>= asStrList
    let wk ← fields.lookup "weaknesses".data >>= asStrList
    pure ⟨s, st, wk⟩
  | _ => none

/-- Scan forward from an opening brace, tracking brace depth, until the
matching close; returns the balanced substring. -/
def balancedFrom : List Char → Nat → List Char → Option (List Char)
  | [], _, _ => none
  | c :: cs, depth, acc =>
    if c = lbraceChar then balancedFrom cs (depth + 1) (c :: acc)
    else if c = rbraceChar then
      if depth = 1 then some ((c :: acc).reverse)
      else balancedFrom cs (depth - 1) (c :: acc)
    else balancedFrom cs depth (c :: acc)

/-- Locate the first balanced JSON-object substring of the text. -/
def firstObjectSubstring : List Char → Option (List Char)
  | [] => none
  | c :: cs =>
    if c = lbraceChar then balancedFrom (c :: cs) 0 []
    else firstObjectSubstring cs

/-- First rung of the fallback ladder: strict JSON parse of the whole output. -/
def strictAnalysis (raw : List Char) : Option AnalysisResult :=
  parseJson raw >>= interpretAnalysis

/-- Second rung: parse the first balanced JSON-object substring. -/
def extractedAnalysis (raw : List Char) : Option AnalysisResult :=
  firstObjectSubstring raw >>= fun sub => parseJson sub >>= interpretAnalysis

/-- Length bound used when a degraded summary is cut from the raw text. -/
def summaryLimit : Nat := 200

/-- Last rung: degraded result built from the raw model output itself. -/
def fallbackResult (raw : List Char) : AnalysisResult :=
  ⟨raw.take summaryLimit, [], []⟩

/-- Modelled from the spec: the defensive parse ladder of the Analysis Generator
(`backend/main.py` is not in the source tree).  Each rung is total; the first
success wins; malformed-but-present output always lands on the degraded
result instead of an error. -/
def parseLadder (raw : List Char) : AnalysisResult :=
  match strictAnalysis raw with
  | some r => r
  | none =>
    match extractedAnalysis raw with
    | some r => r
    | none => fallbackResult raw

/-- Errors the Analysis Generator can raise: only transport-level failure. -/
inductive GenerationError where
  | unreachable
deriving Repr, DecidableEq

/-- Modelled from the spec: `generate` invokes the LLM once; `none` transport
output means the model could not be reached at all, any present output is fed
to the parse ladder and never raises. -/
def generate (transport : Option (List Char)) :
    Except GenerationError AnalysisResult :=
  match transport with
  | none => Except.error GenerationError.unreachable
  | some raw => Except.ok (parseLadder raw)

/-- The fixed set of named personality dimensions read from the upstream
fetch payload. -/
def bigFiveDimensions : List String :=
  ["openness", "conscientiousness", "extraversion", "agreeableness", "neuroticism"]

/-- Midpoint of the 0-100 trait scale, used for missing dimensions. -/
def midpointScore : Int := 50

/-- Clamp a raw payload value into the 0-100 scale. -/
def clampScore (v : Int) : Int :=
  if v < 0 then 0 else if 100 < v then 100 else v

/-- Modelled from the spec: the score the fetch phase of the Profile Acquirer
derives for one dimension (`backend/main.py` is not in the source tree);
out-of-range values are clamped, missing dimensions default to the midpoint. -/
def scoreFor (payload : List (String × Int)) (d : String) : Int :=
  match payload.lookup d with
  | some v => clampScore v
  | none => midpointScore

/-- Modelled from the spec: trait-score derivation over the fixed dimension
set, never failing the fetch. -/
def deriveTraitScores (payload : List (String × Int)) : List (String × Int) :=
  bigFiveDimensions.map fun d => (d, scoreFor payload d)

/-- Modelled from the spec: Record Store freshness check, a pure function of
`updated_at` against the configured expiry duration.  Timestamps are
microsecond counts; a record whose age equals `maxAge` is already expired
(inclusive expiry). -/
def isFresh (updatedAt maxAge now : Nat) : Bool :=
  decide (now - updatedAt < maxAge)

/-- Stored profile row: one per distinct identity key. -/
structure ProfileRecord where
  id : Nat
  identityKey : String
  externalId : String
  rawPayload : List (String × Int)
  traitScores : List (String × Int)
  createdAt : Nat
  updatedAt : Nat
deriving Repr, DecidableEq

/-- Stored analysis row, owned by a profile row through `profileRef`. -/
structure AnalysisRecord where
  id : Nat
  profileRef : Nat
  summary : List Char
  strengths : List (List Char)
  weaknesses : List (List Char)
  createdAt : Nat
  updatedAt : Nat
deriving Repr, DecidableEq

/-- Record Store contents plus the per-identity single-flight lock state for
the one identity under analysis. -/
structure OrchState where
  profiles : List ProfileRecord
  analyses : List AnalysisRecord
  nextId : Nat
  lockHeld : Bool
deriving Repr, DecidableEq

/-- Store state before any request: empty tables, lock free. -/
def emptyState : OrchState := ⟨[], [], 0, false⟩

/-- Result of a successful acquisition: external id, raw payload and the
derived trait scores. -/
structure ProfileSnapshot where
  externalId : String
  rawPayload : List (String × Int)
  traitScores : List (String × Int)
deriving Repr, DecidableEq

/-- Error taxonomy of the Profile Acquirer. -/
inductive AcquisitionError where
  | invalidInput
  | rateLimited
  | processingIncomplete
  | authFailure
  | upstreamInternal
  | networkError
deriving Repr, DecidableEq

/-- User-facing error taxonomy of the Orchestrator.  `storeUnavailable` is a
member so that we can prove it is never returned. -/
inductive OrchError where
  | acquisition (e : AcquisitionError)
  | generationUnreachable
  | storeUnavailable
deriving Repr, DecidableEq

/-- Response assembled by the Orchestrator. -/
structure Response where
  analysis : AnalysisResult
  traitScores : List (String × Int)
  cached : Bool
  cachedAt : Option Nat
deriving Repr, DecidableEq

/-- Observable side effects of one `analyze` run, in order. -/
inductive Event where
  | lockAcquire
  | lockRelease
  | createCall
  | llmCall
  | profilePersist
  | analysisPersist
deriving Repr, DecidableEq

/-- Environment an `analyze` run executes in: the clock, the configured
expiry, store availability, and the outcomes the two upstreams would give. -/
structure Env where
  now : Nat
  maxAge : Nat
  storeAvailable : Bool
  acquireResult : Except AcquisitionError ProfileSnapshot
  generateResult : Except GenerationError AnalysisResult

/-- Record Store `find` on the profile table (absence is a normal value). -/
def findProfile (st : OrchState) (key : String) : Option ProfileRecord :=
  st.profiles.find? fun p => p.identityKey == key

/-- Most recent analysis row owned by the given profile row. -/
def latestAnalysis (st : OrchState) (pid : Nat) : Option AnalysisRecord :=
  (st.analyses.filter fun a => a.profileRef == pid).getLast?

/-- Modelled from the spec: Record Store `upsertProfile`, idempotent on the
identity key — update `raw_payload`/`trait_scores`/`updated_at` in place when
the key exists, insert a fresh row otherwise. -/
def upsertProfile (st : OrchState) (key : String) (snap : ProfileSnapshot)
    (now : Nat) : OrchState :=
  match findProfile st key with
  | some _ =>
    { st with
      profiles := st.profiles.map fun p =>
        if p.identityKey == key then
          { p with externalId := snap.externalId, rawPayload := snap.rawPayload,
                   traitScores := snap.traitScores, updatedAt := now }
        else p }
  | none =>
    { st with
      profiles := st.profiles ++
        [{ id := st.nextId, identityKey := key, externalId := snap.externalId,
           rawPayload := snap.rawPayload, traitScores := snap.traitScores,
           createdAt := now, updatedAt := now }],
      nextId := st.nextId + 1 }

/-- Modelled from the spec: Record Store `insertAnalysis`. -/
def insertAnalysis (st : OrchState) (pid : Nat) (ar : AnalysisResult)
    (now : Nat) : OrchState :=
  { st with
    analyses := st.analyses ++
      [{ id := st.nextId, profileRef := pid, summary := ar.summary,
         strengths := ar.strengths, weaknesses := ar.weaknesses,
         createdAt := now, updatedAt := now }],
    nextId := st.nextId + 1 }

/-- Cache lookup used by steps 2 and 3 of the Orchestrator: a fresh profile
row together with its analysis row, turned into a `cached=true` response.
An unavailable store never produces a hit. -/
def cacheHit (env : Env) (st : OrchState) (key : String) : Option Response :=
  if env.storeAvailable then
    match findProfile st key with
    | some p =>
      if isFresh p.updatedAt env.maxAge env.now then
        match latestAnalysis st p.id with
        | some a =>
          some { analysis := ⟨a.summary, a.strengths, a.weaknesses⟩,
                 traitScores := p.traitScores, cached := true,
                 cachedAt := some p.updatedAt }
        | none => none
      else none
    | none => none
  else none

/-- A fresh profile row for the key, regardless of whether an analysis row
exists yet — the acquisition phase can be skipped when one is present. -/
def freshProfile (env : Env) (st : OrchState) (key : String) :
    Option ProfileRecord :=
  if env.storeAvailable then
    match findProfile st key with
    | some p => if isFresh p.updatedAt env.maxAge env.now then some p else none
    | none => none
  else none

/-- Output of one `analyze` run: result, post state, event trace. -/
structure StepOut where
  result : Except OrchError Response
  state : OrchState
  trace : List Event
deriving Repr

/-- Generation-and-persist tail of the pipeline: invoke the LLM once, then
(store permitting) insert the analysis row owned by the already-persisted
profile row. -/
def runGeneration (env : Env) (st : OrchState) (key : String)
    (snap : ProfileSnapshot) (evs : List Event) : StepOut :=
  match env.generateResult with
  | Except.error _ =>
    ⟨Except.error OrchError.generationUnreachable, st, evs ++ [Event.llmCall]⟩
  | Except.ok ar =>
    match (if env.storeAvailable then findProfile st key else none) with
    | some p =>
      ⟨Except.ok ⟨ar, snap.traitScores, false, none⟩,
       insertAnalysis st p.id ar env.now,
       evs ++ [Event.llmCall, Event.analysisPersist]⟩
    | none =>
      ⟨Except.ok ⟨ar, snap.traitScores, false, none⟩, st,
       evs ++ [Event.llmCall]⟩

/-- Acquisition-and-generation pipeline run under the per-identity lock
(steps 4-6).  A fresh profile row without an analysis lets the run reuse the
stored snapshot instead of re-acquiring; otherwise the two-phase upstream
call is made, and on success the profile row is upserted before the
Generator is invoked. -/
def runPipeline (env : Env) (st : OrchState) (key : String) (force : Bool) :
    StepOut :=
  match (if force then none else freshProfile env st key) with
  | some p =>
    runGeneration env st key ⟨p.externalId, p.rawPayload, p.traitScores⟩ []
  | none =>
    match env.acquireResult with
    | Except.error e =>
      ⟨Except.error (OrchError.acquisition e), st, [Event.createCall]⟩
    | Except.ok snap =>
      if env.storeAvailable then
        runGeneration env (upsertProfile st key snap env.now) key snap
          [Event.createCall, Event.profilePersist]
      else
        runGeneration env st key snap [Event.createCall]

/-- Modelled from the spec: the `analyze` state machine of the Orchestrator
(`backend/main.py` is not in the source tree).  Step 2 pre-check, per-key
lock acquisition, step 3 re-check, pipeline, lock release on every exit. -/
def analyze (env : Env) (st : OrchState) (key : String) (force : Bool) :
    StepOut :=
  match (if force then none else cacheHit env st key) with
  | some resp => ⟨Except.ok resp, st, []⟩
  | none =>
    let stL := { st with lockHeld := true }
    match (if force then none else cacheHit env stL key) with
    | some resp =>
      ⟨Except.ok resp, { stL with lockHeld := false },
       [Event.lockAcquire, Event.lockRelease]⟩
    | none =>
      let out := runPipeline env stL key force
      ⟨out.result, { out.state with lockHeld := false },
       [Event.lockAcquire] ++ out.trace ++ [Event.lockRelease]⟩

/-- Output of a batch of `analyze` runs: post state, per-caller results in
order, concatenated event trace. -/
structure RunOut where
  state : OrchState
  results : List (Except OrchError Response)
  trace : List Event
deriving Repr

/-- N concurrent callers for the same identity: the per-identity single-flight
lock serialises their critical sections, so their combined effect is that of
the runs executed one after another (each caller still performs its own
pre-lock cache check against the state it observes). -/
def analyzeMany (env : Env) (key : String) (force : Bool) :
    Nat → OrchState → RunOut
  | 0, st => ⟨st, [], []⟩
  | Nat.succ n, st =>
    let out := analyze env st key force
    let rest := analyzeMany env key force n out.state
    ⟨rest.state, out.result :: rest.results, out.trace ++ rest.trace⟩

/-- Every analysis row is owned by a persisted profile row. -/
def wellFormed (st : OrchState) : Prop :=
  ∀ a ∈ st.analyses, ∃ p ∈ st.profiles, p.id = a.profileRef

/-- Number of profile rows stored under one identity key. -/
def profileCount (st : OrchState) (key : String) : Nat :=
  st.profiles.countP fun p => p.identityKey == key

/-- Store state after the first successful run for a never-before-seen key:
one profile row (id 0) and its analysis row (id 1), written at `env.now`. -/
def postState (env : Env) (key : String) (snap : ProfileSnapshot)
    (ar : AnalysisResult) : OrchState :=
  ⟨[⟨0, key, snap.externalId, snap.rawPayload, snap.traitScores,
     env.now, env.now⟩],
   [⟨1, 0, ar.summary, ar.strengths, ar.weaknesses, env.now, env.now⟩],
   2, false⟩

/-- One radar-chart data point, as built in the Dashboard component. -/
structure RadarPoint where
  subject : String
  value : Int
  fullMark : Int
deriving Repr, DecidableEq

/-- Raw Big Five scores as received by the Dashboard; `none` models a
missing/undefined field of the JavaScript object. -/
structure RawScores where
  openness : Option Int
  conscientiousness : Option Int
  extraversion : Option Int
  agreeableness : Option Int
  neuroticism : Option Int
deriving Repr, DecidableEq

/-- JavaScript `x || d` on a numeric field: any falsy operand — a missing
field, null/undefined, or the number 0 — yields the default. -/
def jsOrDefault (v : Option Int) (d : Int) : Int :=
  match v with
  | none => d
  | some x => if x = 0 then d else x

/-- Embedded from `src/unnamed/part_004` (`Dashboard`): the `radarData`
array fed to the Recharts radar chart. -/
def radarData (rs : RawScores) : List RadarPoint :=
  [⟨"Openness", jsOrDefault rs.openness 50, 100⟩,
   ⟨"Conscientiousness", jsOrDefault rs.conscientiousness 50, 100⟩,
   ⟨"Extraversion", jsOrDefault rs.extraversion 50, 100⟩,
   ⟨"Agreeableness", jsOrDefault rs.agreeableness 50, 100⟩,
   ⟨"Neuroticism", jsOrDefault rs.neuroticism 50, 100⟩]

/-- Value plotted for one subject of the radar chart. -/
def radarValue (rs : RawScores) (subject : String) : Option Int :=
  ((radarData rs).find? fun p => p.subject == subject).map RadarPoint.value

/-- Concrete prose output with no JSON object in it. -/
def proseSample : List Char :=
  "I am sorry, I cannot produce an analysis for this profile.".data

/-- Concrete identity key used by witnesses. -/
def sampleKey : String := "acme.example/in/jdoe"

/-- Concrete fetch payload used by witnesses. -/
def samplePayload : List (String × Int) :=
  [("openness", 72), ("conscientiousness", 61), ("extraversion", 40),
   ("agreeableness", 55), ("neuroticism", 30)]

/-- Concrete acquisition result used by witnesses. -/
def sampleSnapshot : ProfileSnapshot :=
  ⟨"u1", samplePayload, deriveTraitScores samplePayload⟩

/-- A second acquisition result, used by the force-refresh witness. -/
def sampleSnapshot2 : ProfileSnapshot :=
  ⟨"u1", [("openness", 80), ("neuroticism", 20)],
   deriveTraitScores [("openness", 80), ("neuroticism", 20)]⟩

/-- Concrete generation result used by witnesses. -/
def sampleAnalysis : AnalysisResult :=
  ⟨"Curious and dependable.".data,
   ["curious".data, "dependable".data, "calm".data],
   ["reserved".data, "cautious".data, "quiet".data]⟩

/-- Concrete environment used by witnesses: store up, both upstreams succeed. -/
def sampleEnv : Env :=
  { now := 1000000, maxAge := 3600000000, storeAvailable := true,
    acquireResult := Except.ok sampleSnapshot,
    generateResult := Except.ok sampleAnalysis }

/-- Concrete stored profile row used by witnesses. -/
def cachedProfile : ProfileRecord :=
  ⟨0, sampleKey, "u1", samplePayload, deriveTraitScores samplePayload,
   500000, 500000⟩

/-- Concrete stored analysis row owned by `cachedProfile`. -/
def cachedAnalysisRec : AnalysisRecord :=
  ⟨1, 0, sampleAnalysis.summary, sampleAnalysis.strengths,
   sampleAnalysis.weaknesses, 500000, 500000⟩

/-- Concrete store holding a fresh record pair for `sampleKey`. -/
def cachedState : OrchState := ⟨[cachedProfile], [cachedAnalysisRec], 2, false⟩

/-- Concrete raw scores with a genuine stored zero for openness. -/
def sampleRawScores : RawScores :=
  ⟨some 0, some 61, some 40, some 55, some 30⟩

/-- Environment whose acquisition call fails with a rate-limit error. -/
def failEnv : Env :=
  { sampleEnv with acquireResult := Except.error AcquisitionError.rateLimited }

/-- Environment whose Record Store is unavailable. -/
def downEnv : Env := { sampleEnv with storeAvailable := false }

/-- Environment whose LLM transport fails. -/
def genFailEnv : Env :=
  { sampleEnv with generateResult := Except.error GenerationError.unreachable }

/-- Environment delivering the second acquisition result, used by the
force-refresh witness. -/
def refreshEnv : Env :=
  { sampleEnv with acquireResult := Except.ok sampleSnapshot2 }

/-- Store state after acquisition succeeded but generation failed: the
profile row is persisted, no analysis row exists yet. -/
def profOnlyState (env : Env) (key : String) (snap : ProfileSnapshot) :
    OrchState :=
  ⟨[⟨0, key, snap.externalId, snap.rawPayload, snap.traitScores,
     env.now, env.now⟩], [], 1, false⟩

/-- Looking up a key in a key-tagged map of a key list finds the image. -/
theorem lookup_map_self (l : List String) (f : String → Int) (d : String)
    (hd : d ∈ l) : (l.map fun k => (k, f k)).lookup d = some (f d) := by
  induction l with
  | nil => cases hd
  | cons a l ih =>
    by_cases hda : d = a
    · subst hda
      simp [List.lookup]
    · have hba : (d == a) = false := by simp [hda]
      have hdl : d ∈ l := by
        cases hd with
        | head => exact absurd rfl hda
        | tail _ h => exact h
      simp [List.lookup, hba, ih hdl]

/-- Each derived trait score lies on the 0-100 scale. -/
theorem scoreFor_range (payload : List (String × Int)) (d : String) :
    0 ≤ scoreFor payload d ∧ scoreFor payload d ≤ 100 := by
  cases h : payload.lookup d with
  | none => simp [scoreFor, h, midpointScore]
  | some v =>
    simp only [scoreFor, h, clampScore]
    split_ifs <;> omega

/-- C5: LLM output that is present but not parseable as JSON — both ladder
rungs fail — makes `generate` return the degraded result rather than raise:
the summary is a non-empty prefix of the raw text cut at `summaryLimit`,
strengths and weaknesses are empty, and `GenerationError` arises only when
the transport delivers nothing at all. -/
theorem generate_malformed_fallback (raw : List Char) (hne : raw ≠ [])
    (h1 : strictAnalysis raw = none) (h2 : extractedAnalysis raw = none) :
    generate (some raw) = Except.ok (fallbackResult raw) ∧
    (fallbackResult raw).summary ≠ [] ∧
    (fallbackResult raw).summary ++ raw.drop summaryLimit = raw ∧
    (fallbackResult raw).strengths = [] ∧
    (fallbackResult raw).weaknesses = [] ∧
    (∀ t e, generate t = Except.error e → t = none) := by
  refine ⟨by simp [generate, parseLadder, h1, h2], ?_, ?_, rfl, rfl, ?_⟩
  · cases raw with
    | nil => exact absurd rfl hne
    | cons c cs => simp [fallbackResult, summaryLimit]
  · exact List.take_append_drop summaryLimit raw
  · intro t e h
    cases t with
    | none => rfl
    | some raw2 => simp [generate] at h

/-- Witness for C5 at a concrete prose output. -/
theorem generate_malformed_fallback_witness :
    generate (some proseSample) = Except.ok (fallbackResult proseSample) ∧
    (fallbackResult proseSample).summary ≠ [] ∧
    (fallbackResult proseSample).summary ++ proseSample.drop summaryLimit =
      proseSample ∧
    (fallbackResult proseSample).strengths = [] ∧
    (fallbackResult proseSample).weaknesses = [] ∧
    (∀ t e, generate t = Except.error e → t = none) :=
  generate_malformed_fallback proseSample (by decide) (by decide) (by decide)

/-- C6: the derived trait scores cover every dimension of the fixed Big Five
set with a value in [0, 100]; an out-of-range payload value is clamped and a
missing dimension defaults to the midpoint 50 instead of failing the fetch. -/
theorem deriveTraitScores_total_in_range (payload : List (String × Int))
    (d : String) (hd : d ∈ bigFiveDimensions) :
    ∃ s, (deriveTraitScores payload).lookup d = some s ∧
      0 ≤ s ∧ s ≤ 100 ∧
      (payload.lookup d = none → s = midpointScore) ∧
      (∀ v, payload.lookup d = some v → s = clampScore v) := by
  refine ⟨scoreFor payload d, ?_, (scoreFor_range payload d).1,
    (scoreFor_range payload d).2, ?_, ?_⟩
  · exact lookup_map_self bigFiveDimensions (scoreFor payload) d hd
  · intro h
    simp [scoreFor, h]
  · intro v h
    simp [scoreFor, h]

/-- Witness for C6: a payload with an out-of-range openness value. -/
theorem deriveTraitScores_total_in_range_witness :
    ∃ s, (deriveTraitScores [("openness", 150), ("extraversion", -7)]).lookup
        "openness" = some s ∧
      0 ≤ s ∧ s ≤ 100 ∧
      ([(("openness" : String), (150 : Int)),
        ("extraversion", -7)].lookup "openness" = none → s = midpointScore) ∧
      (∀ v, [(("openness" : String), (150 : Int)),
        ("extraversion", -7)].lookup "openness" = some v →
        s = clampScore v) :=
  deriveTraitScores_total_in_range [("openness", 150), ("extraversion", -7)]
    "openness" (by decide)

/-- C8: freshness is exactly the age comparison against the configured
expiry, and the boundary is inclusive — a record aged exactly `maxAge` is
expired while a record one microsecond younger is fresh. -/
theorem isFresh_expiry_boundary (u maxAge now : Nat) (hpos : 1 ≤ maxAge) :
    (isFresh u maxAge now = true ↔ now - u < maxAge) ∧
    (u + maxAge = now → isFresh u maxAge now = false) ∧
    (u + maxAge = now + 1 → isFresh u maxAge now = true) := by
  unfold isFresh
  refine ⟨by simp, ?_, ?_⟩ <;> intro h <;> simp <;> omega

/-- Witness for C8 at a concrete boundary: expiry 5, record written at 95. -/
theorem isFresh_expiry_boundary_witness :
    (isFresh 95 5 100 = true ↔ 100 - 95 < 5) ∧
    (95 + 5 = 100 → isFresh 95 5 100 = false) ∧
    (95 + 5 = 100 + 1 → isFresh 95 5 100 = true) :=
  isFresh_expiry_boundary 95 5 100 (by decide)

/-- C10: the Dashboard maps a falsy Big Five score — including a genuine
stored 0, not only a missing dimension — to the midpoint: any raw scores
object with openness 0 plots the Openness radar point at 50. -/
theorem radar_zero_score_is_midpoint (rs : RawScores)
    (h : rs.openness = some 0) :
    radarValue rs "Openness" = some 50 ∧
    (∀ d : Int, jsOrDefault (some 0) d = d) ∧
    (∀ d : Int, jsOrDefault none d = d) := by
  refine ⟨?_, fun d => by simp [jsOrDefault], fun d => by simp [jsOrDefault]⟩
  simp [radarValue, radarData, jsOrDefault, h, List.find?]

/-- Witness for C10 at concrete raw scores with openness stored as 0. -/
theorem radar_zero_score_is_midpoint_witness :
    radarValue sampleRawScores "Openness" = some 50 ∧
    (∀ d : Int, jsOrDefault (some 0) d = d) ∧
    (∀ d : Int, jsOrDefault none d = d) :=
  radar_zero_score_is_midpoint sampleRawScores rfl

/-- The lock flag does not affect cache lookups. -/
theorem cacheHit_lock (env : Env) (st : OrchState) (key : String) (b : Bool) :
    cacheHit env { st with lockHeld := b } key = cacheHit env st key := rfl

/-- The lock flag does not affect the fresh-profile lookup. -/
theorem freshProfile_lock (env : Env) (st : OrchState) (key : String)
    (b : Bool) :
    freshProfile env { st with lockHeld := b } key =
      freshProfile env st key := rfl

/-- C2: with the store up, a stored record that is fresh at call time and
`force_refresh=false`, `analyze` returns immediately with `cached=true`, the
stored trait scores and analysis, an unchanged store, and an empty event
trace — no profile-creation, profile-fetch, or LLM call. -/
theorem analyze_cache_hit (env : Env) (st : OrchState) (key : String)
    (p : ProfileRecord) (a : AnalysisRecord)
    (hav : env.storeAvailable = true)
    (hp : findProfile st key = some p)
    (hf : isFresh p.updatedAt env.maxAge env.now = true)
    (ha : latestAnalysis st p.id = some a) :
    analyze env st key false =
      ⟨Except.ok ⟨⟨a.summary, a.strengths, a.weaknesses⟩, p.traitScores, true,
        some p.updatedAt⟩, st, []⟩ := by
  have hch : cacheHit env st key =
      some ⟨⟨a.summary, a.strengths, a.weaknesses⟩, p.traitScores, true,
        some p.updatedAt⟩ := by
    simp [cacheHit, hav, hp, hf, ha]
  simp [analyze, hch]

/-- Witness for C2 at the concrete cached store. -/
theorem analyze_cache_hit_witness :
    analyze sampleEnv cachedState sampleKey false =
      ⟨Except.ok ⟨⟨cachedAnalysisRec.summary, cachedAnalysisRec.strengths,
        cachedAnalysisRec.weaknesses⟩, cachedProfile.traitScores, true,
        some cachedProfile.updatedAt⟩, cachedState, []⟩ :=
  analyze_cache_hit sampleEnv cachedState sampleKey cachedProfile
    cachedAnalysisRec rfl (by decide) (by decide) (by decide)

/-- C9: when the Profile Acquirer fails, `analyze` surfaces the mapped error,
releases the per-identity lock on that exit path, and leaves the stored state
untouched — no partial write and no persist event. -/
theorem analyze_acquisition_error (env : Env) (st : OrchState) (key : String)
    (force : Bool) (e : AcquisitionError)
    (hacq : env.acquireResult = Except.error e)
    (hmiss : cacheHit env st key = none)
    (hnofresh : freshProfile env st key = none) :
    analyze env st key force =
      ⟨Except.error (OrchError.acquisition e), { st with lockHeld := false },
       [Event.lockAcquire, Event.createCall, Event.lockRelease]⟩ := by
  cases force <;>
    simp [analyze, runPipeline, cacheHit_lock, freshProfile_lock, hmiss,
      hnofresh, hacq]

/-- Witness for C9: rate-limited acquisition against an empty store. -/
theorem analyze_acquisition_error_witness :
    analyze failEnv emptyState sampleKey false =
      ⟨Except.error (OrchError.acquisition AcquisitionError.rateLimited),
       { emptyState with lockHeld := false },
       [Event.lockAcquire, Event.createCall, Event.lockRelease]⟩ :=
  analyze_acquisition_error failEnv emptyState sampleKey false
    AcquisitionError.rateLimited rfl rfl rfl

/-- The generation tail never reports the store as unavailable. -/
theorem runGeneration_no_storeUnavailable (e : Env) (st : OrchState)
    (k : String) (snap : ProfileSnapshot) (evs : List Event) :
    (runGeneration e st k snap evs).result ≠
      Except.error OrchError.storeUnavailable := by
  unfold runGeneration
  cases h : e.generateResult with
  | error ge => simp [h]
  | ok ar =>
    simp only [h]
    split <;> simp

/-- The locked pipeline never reports the store as unavailable. -/
theorem runPipeline_no_storeUnavailable (e : Env) (st : OrchState)
    (k : String) (f : Bool) :
    (runPipeline e st k f).result ≠
      Except.error OrchError.storeUnavailable := by
  unfold runPipeline
  split
  · exact runGeneration_no_storeUnavailable _ _ _ _ _
  · cases h : e.acquireResult with
    | error ae => simp [h]
    | ok snap =>
      simp only [h]
      split
      · exact runGeneration_no_storeUnavailable _ _ _ _ _
      · exact runGeneration_no_storeUnavailable _ _ _ _ _

/-- No `analyze` run reports the store as unavailable. -/
theorem analyze_no_storeUnavailable (e : Env) (s : OrchState) (k : String)
    (f : Bool) :
    (analyze e s k f).result ≠ Except.error OrchError.storeUnavailable := by
  unfold analyze
  rcases h1 : (if f = true then none else cacheHit e s k) with _ | resp
  · simp only [h1]
    rcases h2 : (if f = true then none else
        cacheHit e { s with lockHeld := true } k) with _ | resp2
    · simp only [h2]
      exact runPipeline_no_storeUnavailable _ _ _ _
    · simp only [h2]
      simp
  · simp only [h1]
    simp

/-- C4: an unavailable Record Store is absorbed locally — `analyze` still
returns the freshly computed result with `cached=false` and no `cached_at`,
the store is left untouched, and no `analyze` run ever surfaces
`store_unavailable` to the caller. -/
theorem analyze_degraded_store (env : Env) (st : OrchState) (key : String)
    (force : Bool) (snap : ProfileSnapshot) (ar : AnalysisResult)
    (hav : env.storeAvailable = false)
    (hacq : env.acquireResult = Except.ok snap)
    (hgen : env.generateResult = Except.ok ar) :
    analyze env st key force =
      ⟨Except.ok ⟨ar, snap.traitScores, false, none⟩,
       { st with lockHeld := false },
       [Event.lockAcquire, Event.createCall, Event.llmCall,
        Event.lockRelease]⟩ ∧
    (∀ e2 s2 k2 f2, (analyze e2 s2 k2 f2).result ≠
      Except.error OrchError.storeUnavailable) := by
  constructor
  · cases force <;>
      simp [analyze, runPipeline, runGeneration, cacheHit, freshProfile, hav,
        hacq, hgen]
  · intro e2 s2 k2 f2
    exact analyze_no_storeUnavailable e2 s2 k2 f2

/-- Witness for C4: the store-down environment over the cached store. -/
theorem analyze_degraded_store_witness :
    analyze downEnv cachedState sampleKey false =
      ⟨Except.ok ⟨sampleAnalysis, sampleSnapshot.traitScores, false, none⟩,
       { cachedState with lockHeld := false },
       [Event.lockAcquire, Event.createCall, Event.llmCall,
        Event.lockRelease]⟩ ∧
    (∀ e2 s2 k2 f2, (analyze e2 s2 k2 f2).result ≠
      Except.error OrchError.storeUnavailable) :=
  analyze_degraded_store downEnv cachedState sampleKey false sampleSnapshot
    sampleAnalysis rfl rfl rfl

/-- First run for a never-before-seen key: full pipeline, both stores
written, fresh (uncached) response. -/
theorem analyze_first_miss (env : Env) (key : String) (snap : ProfileSnapshot)
    (ar : AnalysisResult)
    (hav : env.storeAvailable = true)
    (hacq : env.acquireResult = Except.ok snap)
    (hgen : env.generateResult = Except.ok ar) :
    analyze env emptyState key false =
      ⟨Except.ok ⟨ar, snap.traitScores, false, none⟩, postState env key snap ar,
       [Event.lockAcquire, Event.createCall, Event.profilePersist,
        Event.llmCall, Event.analysisPersist, Event.lockRelease]⟩ := by
  simp [analyze, runPipeline, runGeneration, cacheHit, freshProfile,
    findProfile, latestAnalysis, upsertProfile, insertAnalysis, emptyState,
    postState, hav, hacq, hgen]

/-- A run right after a completed refresh is a pure cache hit. -/
theorem analyze_after_post (env : Env) (key : String) (snap : ProfileSnapshot)
    (ar : AnalysisResult)
    (hav : env.storeAvailable = true) (hmax : 1 ≤ env.maxAge) :
    analyze env (postState env key snap ar) key false =
      ⟨Except.ok ⟨ar, snap.traitScores, true, some env.now⟩,
       postState env key snap ar, []⟩ := by
  have hfr : isFresh env.now env.maxAge env.now = true := by
    simp [isFresh]
    omega
  have hch : cacheHit env (postState env key snap ar) key =
      some ⟨ar, snap.traitScores, true, some env.now⟩ := by
    simp [cacheHit, findProfile, postState, latestAnalysis, hav, hfr]
  simp [analyze, hch]

/-- Every later caller in the batch re-reads the now-fresh cache: no state
change, no events, the equivalent cached response. -/
theorem analyzeMany_after_post (env : Env) (key : String)
    (snap : ProfileSnapshot) (ar : AnalysisResult)
    (hav : env.storeAvailable = true) (hmax : 1 ≤ env.maxAge) (m : Nat) :
    analyzeMany env key false m (postState env key snap ar) =
      ⟨postState env key snap ar,
       List.replicate m
         (Except.ok ⟨ar, snap.traitScores, true, some env.now⟩), []⟩ := by
  induction m with
  | zero => rfl
  | succ n ih =>
    simp [analyzeMany, analyze_after_post env key snap ar hav hmax, ih,
      List.replicate]

/-- C1: N >= 2 callers for the same never-before-seen identity, serialised by
the per-identity single-flight lock, make exactly one upstream
profile-creation call and one LLM call in total, and every caller receives an
equivalent result (the same analysis and trait scores). -/
theorem single_flight_dedup (env : Env) (key : String)
    (snap : ProfileSnapshot) (ar : AnalysisResult) (n : Nat)
    (hn : 2 ≤ n) (hav : env.storeAvailable = true) (hmax : 1 ≤ env.maxAge)
    (hacq : env.acquireResult = Except.ok snap)
    (hgen : env.generateResult = Except.ok ar) :
    (analyzeMany env key false n emptyState).trace.count Event.createCall =
      1 ∧
    (analyzeMany env key false n emptyState).trace.count Event.llmCall = 1 ∧
    ∀ r ∈ (analyzeMany env key false n emptyState).results, ∃ resp,
      r = Except.ok resp ∧ resp.analysis = ar ∧
      resp.traitScores = snap.traitScores := by
  obtain ⟨m, rfl⟩ : ∃ m, n = m + 1 := ⟨n - 1, by omega⟩
  have h1 := analyze_first_miss env key snap ar hav hacq hgen
  have h2 := analyzeMany_after_post env key snap ar hav hmax m
  refine ⟨?_, ?_, ?_⟩
  · simp [analyzeMany, h1, h2]
  · simp [analyzeMany, h1, h2]
  · intro r hr
    simp only [analyzeMany, h1, h2] at hr
    rcases List.mem_cons.mp hr with rfl | hr2
    · exact ⟨⟨ar, snap.traitScores, false, none⟩, rfl, rfl, rfl⟩
    · rw [List.eq_of_mem_replicate hr2]
      exact ⟨⟨ar, snap.traitScores, true, some env.now⟩, rfl, rfl, rfl⟩

/-- Witness for C1: three concurrent callers over the sample environment. -/
theorem single_flight_dedup_witness :
    (analyzeMany sampleEnv sampleKey false 3 emptyState).trace.count
      Event.createCall = 1 ∧
    (analyzeMany sampleEnv sampleKey false 3 emptyState).trace.count
      Event.llmCall = 1 ∧
    ∀ r ∈ (analyzeMany sampleEnv sampleKey false 3 emptyState).results,
      ∃ resp, r = Except.ok resp ∧ resp.analysis = sampleAnalysis ∧
        resp.traitScores = sampleSnapshot.traitScores :=
  single_flight_dedup sampleEnv sampleKey sampleSnapshot sampleAnalysis 3
    (by decide) rfl (by decide) rfl rfl

/-- The lock flag does not affect the profile lookup. -/
theorem findProfile_lock (st : OrchState) (key : String) (b : Bool) :
    findProfile { st with lockHeld := b } key = findProfile st key := rfl

/-- Finding by key through a key-preserving in-place update returns the
updated image of the record found before. -/
theorem find?_map_update (l : List ProfileRecord) (key : String)
    (g : ProfileRecord → ProfileRecord)
    (hg : ∀ p, (g p).identityKey = p.identityKey) :
    (l.map fun p => if p.identityKey == key then g p else p).find?
        (fun p => p.identityKey == key) =
      (l.find? fun p => p.identityKey == key).map g := by
  induction l with
  | nil => simp
  | cons q l ih =>
    by_cases h : q.identityKey == key
    · simp [List.find?, h, hg]
    · simp only [List.map_cons, if_neg h]
      rw [List.find?]
      simp only [h]
      rw [List.find?]
      simp only [h, ih]

/-- A key-preserving in-place update keeps the per-key row count. -/
theorem countP_map_update (l : List ProfileRecord) (key : String)
    (g : ProfileRecord → ProfileRecord)
    (hg : ∀ p, (g p).identityKey = p.identityKey) :
    (l.map fun p => if p.identityKey == key then g p else p).countP
        (fun p => p.identityKey == key) =
      l.countP (fun p => p.identityKey == key) := by
  induction l with
  | nil => rfl
  | cons q l ih =>
    have hpred : ((if (q.identityKey == key) = true then g q
        else q).identityKey == key) = (q.identityKey == key) := by
      cases hb : q.identityKey == key with
      | true => simp [hb, hg]
      | false => simp [hb]
    rw [List.map_cons, List.countP_cons, List.countP_cons, ih, hpred]

/-- Upsert over an existing key rewrites the row in place. -/
theorem upsertProfile_found (st : OrchState) (key : String)
    (snap : ProfileSnapshot) (now : Nat) (p : ProfileRecord)
    (hp : findProfile st key = some p) :
    upsertProfile st key snap now =
      { st with profiles := st.profiles.map fun q =>
          if q.identityKey == key then
            { q with externalId := snap.externalId,
                     rawPayload := snap.rawPayload,
                     traitScores := snap.traitScores, updatedAt := now }
          else q } := by
  unfold upsertProfile
  rw [hp]

/-- C3: `force_refresh=true` runs the full pipeline even though a stored
record for the key exists, and the new result replaces the stored row in
place — same row count, same list length, never a duplicate row. -/
theorem analyze_force_refresh (env : Env) (st : OrchState) (key : String)
    (p : ProfileRecord) (snap : ProfileSnapshot) (ar : AnalysisResult)
    (hav : env.storeAvailable = true)
    (hacq : env.acquireResult = Except.ok snap)
    (hgen : env.generateResult = Except.ok ar)
    (hp : findProfile st key = some p) :
    (analyze env st key true).result =
      Except.ok ⟨ar, snap.traitScores, false, none⟩ ∧
    (analyze env st key true).trace =
      [Event.lockAcquire, Event.createCall, Event.profilePersist,
       Event.llmCall, Event.analysisPersist, Event.lockRelease] ∧
    findProfile (analyze env st key true).state key =
      some { p with externalId := snap.externalId,
                    rawPayload := snap.rawPayload,
                    traitScores := snap.traitScores, updatedAt := env.now } ∧
    profileCount (analyze env st key true).state key =
      profileCount st key ∧
    (analyze env st key true).state.profiles.length =
      st.profiles.length := by
  have hg : ∀ q : ProfileRecord,
      ({ q with
          externalId := snap.externalId,
          rawPayload := snap.rawPayload,
          traitScores := snap.traitScores,
          updatedAt := env.now } : ProfileRecord).identityKey =
        q.identityKey := fun q => rfl
  have hpl : findProfile { st with lockHeld := true } key = some p := hp
  have hup := upsertProfile_found { st with lockHeld := true } key snap
    env.now p hpl
  have hfind : findProfile
      (upsertProfile { st with lockHeld := true } key snap env.now) key =
      some { p with externalId := snap.externalId,
                    rawPayload := snap.rawPayload,
                    traitScores := snap.traitScores,
                    updatedAt := env.now } := by
    rw [hup]
    show (List.map _ st.profiles).find? _ = _
    rw [find?_map_update st.profiles key _ hg]
    rw [show st.profiles.find? (fun q => q.identityKey == key) = some p
      from hp]
    rfl
  have hmain : analyze env st key true =
      ⟨Except.ok ⟨ar, snap.traitScores, false, none⟩,
       { insertAnalysis
           (upsertProfile { st with lockHeld := true } key snap env.now)
           ({ p with
               externalId := snap.externalId,
               rawPayload := snap.rawPayload,
               traitScores := snap.traitScores,
               updatedAt := env.now } : ProfileRecord).id ar env.now
         with lockHeld := false },
       [Event.lockAcquire, Event.createCall, Event.profilePersist,
        Event.llmCall, Event.analysisPersist, Event.lockRelease]⟩ := by
    simp [analyze, runPipeline, runGeneration, hav, hacq, hgen, hfind]
  refine ⟨by rw [hmain], by rw [hmain], ?_, ?_, ?_⟩
  · rw [hmain]
    show findProfile
      (upsertProfile { st with lockHeld := true } key snap env.now) key = _
    exact hfind
  · rw [hmain]
    show (upsertProfile { st with lockHeld := true } key snap
      env.now).profiles.countP _ = _
    rw [hup]
    exact countP_map_update st.profiles key _ hg
  · rw [hmain]
    show (upsertProfile { st with lockHeld := true } key snap
      env.now).profiles.length = _
    rw [hup]
    exact List.length_map _ _

/-- Witness for C3: forced refresh of the cached sample record. -/
theorem analyze_force_refresh_witness :
    (analyze refreshEnv cachedState sampleKey true).result =
      Except.ok ⟨sampleAnalysis, sampleSnapshot2.traitScores, false, none⟩ ∧
    (analyze refreshEnv cachedState sampleKey true).trace =
      [Event.lockAcquire, Event.createCall, Event.profilePersist,
       Event.llmCall, Event.analysisPersist, Event.lockRelease] ∧
    findProfile (analyze refreshEnv cachedState sampleKey true).state
        sampleKey =
      some { cachedProfile with
              externalId := sampleSnapshot2.externalId,
              rawPayload := sampleSnapshot2.rawPayload,
              traitScores := sampleSnapshot2.traitScores,
              updatedAt := refreshEnv.now } ∧
    profileCount (analyze refreshEnv cachedState sampleKey true).state
        sampleKey = profileCount cachedState sampleKey ∧
    (analyze refreshEnv cachedState sampleKey
        true).state.profiles.length = cachedState.profiles.length :=
  analyze_force_refresh refreshEnv cachedState sampleKey cachedProfile
    sampleSnapshot2 sampleAnalysis rfl rfl rfl (by decide)

/-- Upsert keeps a row with any previously present row id. -/
theorem upsert_keeps_owner (st : OrchState) (key : String)
    (snap : ProfileSnapshot) (now : Nat) (pid : Nat)
    (h : ∃ q ∈ st.profiles, q.id = pid) :
    ∃ q ∈ (upsertProfile st key snap now).profiles, q.id = pid := by
  obtain ⟨q, hq, hid⟩ := h
  unfold upsertProfile
  split
  · refine ⟨if q.identityKey == key then
      { q with
          externalId := snap.externalId,
          rawPayload := snap.rawPayload,
          traitScores := snap.traitScores, updatedAt := now }
      else q, ?_, ?_⟩
    · exact List.mem_map_of_mem _ hq
    · cases hb : q.identityKey == key <;> simp [hb, hid]
  · exact ⟨q, List.mem_append_left _ hq, hid⟩

/-- Upsert preserves the ownership invariant. -/
theorem wellFormed_upsertProfile (st : OrchState) (key : String)
    (snap : ProfileSnapshot) (now : Nat) (hwf : wellFormed st) :
    wellFormed (upsertProfile st key snap now) := by
  intro a ha
  have ha2 : a ∈ st.analyses := by
    unfold upsertProfile at ha
    split at ha <;> exact ha
  exact upsert_keeps_owner st key snap now a.profileRef (hwf a ha2)

/-- Inserting an analysis owned by a present profile row preserves the
ownership invariant. -/
theorem wellFormed_insertAnalysis (st : OrchState) (pid : Nat)
    (ar : AnalysisResult) (now : Nat)
    (hp : ∃ q ∈ st.profiles, q.id = pid) (hwf : wellFormed st) :
    wellFormed (insertAnalysis st pid ar now) := by
  intro a ha
  simp only [insertAnalysis, List.mem_append, List.mem_singleton] at ha
  rcases ha with ha | rfl
  · exact hwf a ha
  · simpa using hp

/-- The generation tail preserves the ownership invariant. -/
theorem wellFormed_runGeneration (e : Env) (st : OrchState) (k : String)
    (snap : ProfileSnapshot) (evs : List Event) (hwf : wellFormed st) :
    wellFormed (runGeneration e st k snap evs).state := by
  unfold runGeneration
  cases hgr : e.generateResult with
  | error ge => exact hwf
  | ok ar =>
    simp only [hgr]
    rcases hf : (if e.storeAvailable then findProfile st k else none)
      with _ | q
    · simp only [hf]
      exact hwf
    · simp only [hf]
      have hq : findProfile st k = some q := by
        by_cases hb : e.storeAvailable
        · simpa [hb] using hf
        · simp [hb] at hf
      have hmem : q ∈ st.profiles := by
        unfold findProfile at hq
        exact List.mem_of_find?_eq_some hq
      exact wellFormed_insertAnalysis st q.id ar e.now ⟨q, hmem, rfl⟩ hwf

/-- The locked pipeline preserves the ownership invariant. -/
theorem wellFormed_runPipeline (e : Env) (st : OrchState) (k : String)
    (f : Bool) (hwf : wellFormed st) :
    wellFormed (runPipeline e st k f).state := by
  unfold runPipeline
  split
  · exact wellFormed_runGeneration _ _ _ _ _ hwf
  · cases ha : e.acquireResult with
    | error ae => simp only [ha]; exact hwf
    | ok snap =>
      simp only [ha]
      by_cases hb : e.storeAvailable
      · simp only [hb, if_true]
        exact wellFormed_runGeneration _ _ _ _ _
          (wellFormed_upsertProfile _ _ _ _ hwf)
      · simp only [hb, if_false]
        exact wellFormed_runGeneration _ _ _ _ _ hwf

/-- Every `analyze` run preserves the ownership invariant. -/
theorem wellFormed_analyze (e : Env) (s : OrchState) (k : String) (f : Bool)
    (hwf : wellFormed s) : wellFormed (analyze e s k f).state := by
  unfold analyze
  rcases h1 : (if f = true then none else cacheHit e s k) with _ | resp
  · simp only [h1]
    rcases h2 : (if f = true then none else
        cacheHit e { s with lockHeld := true } k) with _ | resp2
    · simp only [h2]
      exact wellFormed_runPipeline e { s with lockHeld := true } k f hwf
    · simp only [h2]
      exact hwf
  · simp only [h1]
    exact hwf

/-- First run whose generation fails: the profile row is already persisted
(before the LLM call, as the trace shows), no analysis row is written. -/
theorem analyze_gen_fail_first (env : Env) (key : String)
    (snap : ProfileSnapshot)
    (hav : env.storeAvailable = true)
    (hacq : env.acquireResult = Except.ok snap)
    (hgenF : env.generateResult = Except.error GenerationError.unreachable) :
    analyze env emptyState key false =
      ⟨Except.error OrchError.generationUnreachable,
       profOnlyState env key snap,
       [Event.lockAcquire, Event.createCall, Event.profilePersist,
        Event.llmCall, Event.lockRelease]⟩ := by
  simp [analyze, runPipeline, runGeneration, cacheHit, freshProfile,
    findProfile, upsertProfile, emptyState, profOnlyState, hav, hacq, hgenF]

/-- A later run that finds a fresh profile row with no analysis row skips the
acquisition phase entirely and only regenerates. -/
theorem analyze_reuse_profile (env2 : Env) (st : OrchState) (key : String)
    (p : ProfileRecord) (ar : AnalysisResult)
    (hav2 : env2.storeAvailable = true)
    (hp : findProfile st key = some p)
    (hfr : isFresh p.updatedAt env2.maxAge env2.now = true)
    (hna : latestAnalysis st p.id = none)
    (hgen2 : env2.generateResult = Except.ok ar) :
    analyze env2 st key false =
      ⟨Except.ok ⟨ar, p.traitScores, false, none⟩,
       { insertAnalysis st p.id ar env2.now with lockHeld := false },
       [Event.lockAcquire, Event.llmCall, Event.analysisPersist,
        Event.lockRelease]⟩ := by
  have hch : cacheHit env2 st key = none := by
    simp [cacheHit, hav2, hp, hfr, hna]
  have hfp : freshProfile env2 st key = some p := by
    simp [freshProfile, hav2, hp, hfr]
  simp [analyze, runPipeline, runGeneration, cacheHit_lock, freshProfile_lock,
    findProfile_lock, insertAnalysis, hch, hfp, hav2, hgen2, hp]

/-- C7: an analysis row exists only if its owning profile row is persisted
(every run preserves the write-order invariant); on a fresh-key run the
profile is persisted before the LLM call, so a generation failure still
leaves the acquired profile stored and a retry skips acquisition — its trace
contains no profile-creation call. -/
theorem analysis_owned_profile_first (env env2 : Env) (key : String)
    (snap : ProfileSnapshot) (ar : AnalysisResult)
    (hav : env.storeAvailable = true)
    (hacq : env.acquireResult = Except.ok snap)
    (hgenF : env.generateResult = Except.error GenerationError.unreachable)
    (hav2 : env2.storeAvailable = true)
    (hnow2 : env2.now = env.now)
    (hmax2 : 1 ≤ env2.maxAge)
    (hgen2 : env2.generateResult = Except.ok ar) :
    (∀ e s k f, wellFormed s → wellFormed (analyze e s k f).state) ∧
    (analyze env emptyState key false).trace =
      [Event.lockAcquire, Event.createCall, Event.profilePersist,
       Event.llmCall, Event.lockRelease] ∧
    (analyze env emptyState key false).result =
      Except.error OrchError.generationUnreachable ∧
    findProfile (analyze env emptyState key false).state key =
      some ⟨0, key, snap.externalId, snap.rawPayload, snap.traitScores,
        env.now, env.now⟩ ∧
    (analyze env emptyState key false).state.analyses = [] ∧
    (analyze env2 (analyze env emptyState key false).state key
        false).trace.count Event.createCall = 0 ∧
    (analyze env2 (analyze env emptyState key false).state key
        false).result = Except.ok ⟨ar, snap.traitScores, false, none⟩ := by
  have h1 := analyze_gen_fail_first env key snap hav hacq hgenF
  have hrow : findProfile (profOnlyState env key snap) key =
      some ⟨0, key, snap.externalId, snap.rawPayload, snap.traitScores,
        env.now, env.now⟩ := by
    simp [findProfile, profOnlyState]
  have hfr : isFresh env.now env2.maxAge env2.now = true := by
    simp [isFresh, hnow2]
    omega
  have h2 := analyze_reuse_profile env2 (profOnlyState env key snap) key
    ⟨0, key, snap.externalId, snap.rawPayload, snap.traitScores,
      env.now, env.now⟩ ar hav2 hrow hfr (by rfl) hgen2
  refine ⟨fun e s k f hwf => wellFormed_analyze e s k f hwf,
    by rw [h1], by rw [h1], by rw [h1]; exact hrow, by rw [h1]; rfl,
    ?_, ?_⟩
  · rw [h1]
    show (analyze env2 (profOnlyState env key snap) key
      false).trace.count Event.createCall = 0
    rw [h2]
    rfl
  · rw [h1]
    show (analyze env2 (profOnlyState env key snap) key false).result = _
    rw [h2]

/-- Witness for C7: generation fails under `genFailEnv`, retry under
`sampleEnv`. -/
theorem analysis_owned_profile_first_witness :
    (∀ e s k f, wellFormed s → wellFormed (analyze e s k f).state) ∧
    (analyze genFailEnv emptyState sampleKey false).trace =
      [Event.lockAcquire, Event.createCall, Event.profilePersist,
       Event.llmCall, Event.lockRelease] ∧
    (analyze genFailEnv emptyState sampleKey false).result =
      Except.error OrchError.generationUnreachable ∧
    findProfile (analyze genFailEnv emptyState sampleKey false).state
        sampleKey =
      some ⟨0, sampleKey, sampleSnapshot.externalId,
        sampleSnapshot.rawPayload, sampleSnapshot.traitScores,
        genFailEnv.now, genFailEnv.now⟩ ∧
    (analyze genFailEnv emptyState sampleKey false).state.analyses = [] ∧
    (analyze sampleEnv (analyze genFailEnv emptyState sampleKey false).state
        sampleKey false).trace.count Event.createCall = 0 ∧
    (analyze sampleEnv (analyze genFailEnv emptyState sampleKey false).state
        sampleKey false).result =
      Except.ok ⟨sampleAnalysis, sampleSnapshot.traitScores, false, none⟩ :=
  analysis_owned_profile_first genFailEnv sampleEnv sampleKey sampleSnapshot
    sampleAnalysis rfl rfl rfl rfl rfl (by decide) rfl

end InsightProfile
